import Mathlib

/-!
Verification of the chibiwasm interpreter core against its specification.

The definitions below are a shallow embedding of the Rust sources:
`src/instruction.rs` (opcode table and instruction handlers), `src/main.rs`
(the CLI entry point) and `tests/spec.rs` (the spec-test harness).  The
operand stack is a `List Value` whose head is the top of the stack; `i32`
and `i64` payloads are `Int` (two's-complement values), `f32`/`f64`
payloads are their raw bit patterns as `Nat`.  Fallible Rust functions
returning `Result` become `Except Err` values.
-/

namespace Chibiwasm

/-- Opcode enum from `src/instruction.rs`, one variant per source variant,
with the source's discriminant byte recorded by `Opcode.from_u8` below. -/
inductive Opcode where
  | Unreachable
  | Nop
  | LocalGet
  | Call
  | I32Const
  | I32Eqz
  | I32Eq
  | I32Ne
  | I32LtS
  | I32LtU
  | I32GtS
  | I32GtU
  | I32LeS
  | I32LeU
  | I32GeS
  | I32GeU
  | I32Add
  | I32Sub
  | I32Mul
  | I32Clz
  | I32Ctz
  | I32Popcnt
  | I32DivS
  | I32DivU
  | I32RemS
  | I32RemU
  | I32And
  | I32Or
  | I32Xor
  | I32ShL
  | I32ShrS
  | I32ShrU
  | I32RtoL
  | I32RtoR
  | I32Extend8S
  | I32Extend16S
  | I64Const
  | I64Eqz
  | I64Eq
  | I64Ne
  | I64LtS
  | I64LtU
  | I64GtS
  | I64GtU
  | I64LeS
  | I64LeU
  | I64GeS
  | I64GeU
  | I64Clz
  | I64Ctz
  | I64Popcnt
  | I64Add
  | I64Sub
  | I64Mul
  | I64DivS
  | I64DivU
  | I64RemS
  | I64RemU
  | I64And
  | I64Or
  | I64Xor
  | I64ShL
  | I64ShrS
  | I64ShrU
  | I64RtoL
  | I64RtoR
  | I64Extend8S
  | I64Extend16S
  | I64Extend32S
  | F32Const
  | F32Eq
  | F32Ne
  | F32Lt
  | F32Gt
  | F32Le
  | F32Ge
  | F32Abs
  | F32Neg
  | F32Ceil
  | F32Floor
  | F32Trunc
  | F32Nearest
  | F32Sqrt
  | F32Add
  | F32Sub
  | F32Mul
  | F32Div
  | F32Min
  | F32Max
  | F64Eq
  | F64Ne
  | F64Lt
  | F64Gt
  | F64Le
  | F64Ge
  | F32Copysign
  | Return
  | If
  | Else
  | End
  | Void
  deriving DecidableEq, Repr

/-- Decoding a byte to an opcode, as the `FromPrimitive` derive on the
source enum produces it: each discriminant byte maps to its variant and
every other byte to `none`. -/
def Opcode.from_u8 (b : Nat) : Option Opcode :=
  match b with
  | 0x00 => some .Unreachable
  | 0x01 => some .Nop
  | 0x20 => some .LocalGet
  | 0x10 => some .Call
  | 0x41 => some .I32Const
  | 0x45 => some .I32Eqz
  | 0x46 => some .I32Eq
  | 0x47 => some .I32Ne
  | 0x48 => some .I32LtS
  | 0x49 => some .I32LtU
  | 0x4A => some .I32GtS
  | 0x4B => some .I32GtU
  | 0x4C => some .I32LeS
  | 0x4D => some .I32LeU
  | 0x4E => some .I32GeS
  | 0x4F => some .I32GeU
  | 0x6a => some .I32Add
  | 0x6b => some .I32Sub
  | 0x6c => some .I32Mul
  | 0x67 => some .I32Clz
  | 0x68 => some .I32Ctz
  | 0x69 => some .I32Popcnt
  | 0x6D => some .I32DivS
  | 0x6E => some .I32DivU
  | 0x6F => some .I32RemS
  | 0x70 => some .I32RemU
  | 0x71 => some .I32And
  | 0x72 => some .I32Or
  | 0x73 => some .I32Xor
  | 0x74 => some .I32ShL
  | 0x75 => some .I32ShrS
  | 0x76 => some .I32ShrU
  | 0x77 => some .I32RtoL
  | 0x78 => some .I32RtoR
  | 0xC0 => some .I32Extend8S
  | 0xC1 => some .I32Extend16S
  | 0x42 => some .I64Const
  | 0x50 => some .I64Eqz
  | 0x51 => some .I64Eq
  | 0x52 => some .I64Ne
  | 0x53 => some .I64LtS
  | 0x54 => some .I64LtU
  | 0x55 => some .I64GtS
  | 0x56 => some .I64GtU
  | 0x57 => some .I64LeS
  | 0x58 => some .I64LeU
  | 0x59 => some .I64GeS
  | 0x5A => some .I64GeU
  | 0x79 => some .I64Clz
  | 0x7A => some .I64Ctz
  | 0x7B => some .I64Popcnt
  | 0x7C => some .I64Add
  | 0x7D => some .I64Sub
  | 0x7E => some .I64Mul
  | 0x7F => some .I64DivS
  | 0x80 => some .I64DivU
  | 0x81 => some .I64RemS
  | 0x82 => some .I64RemU
  | 0x83 => some .I64And
  | 0x84 => some .I64Or
  | 0x85 => some .I64Xor
  | 0x86 => some .I64ShL
  | 0x87 => some .I64ShrS
  | 0x88 => some .I64ShrU
  | 0x89 => some .I64RtoL
  | 0x8A => some .I64RtoR
  | 0xC2 => some .I64Extend8S
  | 0xC3 => some .I64Extend16S
  | 0xC4 => some .I64Extend32S
  | 0x43 => some .F32Const
  | 0x5B => some .F32Eq
  | 0x5C => some .F32Ne
  | 0x5D => some .F32Lt
  | 0x5E => some .F32Gt
  | 0x5F => some .F32Le
  | 0x60 => some .F32Ge
  | 0x8B => some .F32Abs
  | 0x8C => some .F32Neg
  | 0x8D => some .F32Ceil
  | 0x8E => some .F32Floor
  | 0x8F => some .F32Trunc
  | 0x90 => some .F32Nearest
  | 0x91 => some .F32Sqrt
  | 0x92 => some .F32Add
  | 0x93 => some .F32Sub
  | 0x94 => some .F32Mul
  | 0x95 => some .F32Div
  | 0x96 => some .F32Min
  | 0x97 => some .F32Max
  | 0x61 => some .F64Eq
  | 0x62 => some .F64Ne
  | 0x63 => some .F64Lt
  | 0x64 => some .F64Gt
  | 0x65 => some .F64Le
  | 0x66 => some .F64Ge
  | 0x98 => some .F32Copysign
  | 0x0f => some .Return
  | 0x04 => some .If
  | 0x05 => some .Else
  | 0x0b => some .End
  | 0x40 => some .Void
  | _ => none

/-- Error plane of the runtime, from `src/error.rs` as the spec describes it
(spec §7): `StackPopError` and the `bail!` messages are internal errors, kept
distinct from spec traps. -/
inductive Err where
  | stackPopError
  | internal (msg : String)
  | trap (msg : String)
  deriving DecidableEq, Repr

/-- Runtime values: `i32`/`i64` payloads are the two's-complement integer
value, `f32`/`f64` payloads are the raw IEEE-754 bit pattern. -/
inductive Value where
  | I32 (v : Int)
  | I64 (v : Int)
  | F32 (bits : Nat)
  | F64 (bits : Nat)
  deriving DecidableEq, Repr

/-- Embedding of Rust's `count_ones` on a bit pattern: the number of set
bits, computed bit by bit. -/
def popCountNat (n : Nat) : Nat :=
  if h : n = 0 then 0 else n % 2 + popCountNat (n / 2)
decreasing_by exact Nat.div_lt_self (Nat.pos_of_ne_zero h) one_lt_two

/-- Bit pattern of an `i32` two's-complement value `v` is `v mod 2^32`;
`v.count_ones()` counts its set bits. -/
def i32CountOnes (v : Int) : Nat := popCountNat (v % 2 ^ 32).toNat

/-- Bit pattern of an `i64` two's-complement value `v` is `v mod 2^64`;
`v.count_ones()` counts its set bits. -/
def i64CountOnes (v : Int) : Nat := popCountNat (v % 2 ^ 64).toNat

/-- Two's-complement wrap-around of an integer into the `i64` value range,
as Rust's wrapping shift produces it. -/
def wrap64 (x : Int) : Int := (x + 2 ^ 63) % 2 ^ 64 - 2 ^ 63

/-- Two's-complement wrap-around into the `i32` value range. -/
def wrap32 (x : Int) : Int := (x + 2 ^ 31) % 2 ^ 32 - 2 ^ 31

/-- Arithmetic right shift on a signed integer, Rust's `>>` on `i64`:
floor division by the shifted power of two. -/
def ashr (x : Int) (k : Nat) : Int := Int.fdiv x (2 ^ k)

/-- Embedding of `pop_rl` from `src/instruction.rs`: pop the right operand
from the top of the stack, then the left; each failed pop is the internal
`StackPopError`. -/
def pop_rl (st : List Value) : Except Err (Value × Value × List Value) :=
  match st with
  | [] => .error .stackPopError
  | r :: rest =>
    match rest with
    | [] => .error .stackPopError
    | l :: rest2 => .ok (r, l, rest2)

/-- Embedding of the `impl_binary_operation!` macro from
`src/instruction.rs`, parameterised by the `Value` method `op` it expands
against (`add`, `sub`, `div_s`, ...): pop right then left via `pop_rl`,
apply `l.op(r)` and push the result. -/
def binaryOperation (op : Value → Value → Except Err Value) (st : List Value) :
    Except Err (List Value) :=
  match pop_rl st with
  | .error e => .error e
  | .ok (r, l, rest) =>
    match op l r with
    | .error e => .error e
    | .ok v => .ok (v :: rest)

/-- Modelled from the spec: `Runtime::stack_pop` (`execution/runtime.rs` is
absent from the sources) — pops the top operand, reporting operand-stack
underflow as the internal error (spec §7). -/
def stack_pop (st : List Value) : Except Err (Value × List Value) :=
  match st with
  | v :: rest => .ok (v, rest)
  | [] => .error .stackPopError

/-- Embedding of `popcnt` from `src/instruction.rs`: pop a value; on `I32`
or `I64` push the count of set bits (the `From<u32>`/`From<i64>` value
conversions of the absent `value.rs` are taken as the evident `I32`/`I64`
constructors); on a float operand fail with the internal error
`unexpected value`. -/
def popcnt (st : List Value) : Except Err (List Value) :=
  match stack_pop st with
  | .error e => .error e
  | .ok (v, rest) =>
    match v with
    | .I32 v => .ok (.I32 (i32CountOnes v : Nat) :: rest)
    | .I64 v => .ok (.I64 (i64CountOnes v : Nat) :: rest)
    | _ => .error (.internal "unexpected value")

/-- Embedding of `i64extend_32s` from `src/instruction.rs`: pop a value
(`StackPopError` on an empty stack); on `I64 v` compute `v << 32 >> 32`
(wrapping left shift, then arithmetic right shift) and push it; on any
other value fail with the internal error `unexpected value type`. -/
def i64extend_32s (st : List Value) : Except Err (List Value) :=
  match st with
  | [] => .error .stackPopError
  | v :: rest =>
    match v with
    | .I64 v => .ok (.I64 (ashr (wrap64 (v * 2 ^ 32)) 32) :: rest)
    | _ => .error (.internal "unexpected value type")

/-- Modelled from the spec: `Value::sub` (`execution/value.rs` is absent
from the sources) — `iN.sub` is subtraction modulo `2^N` (spec §4.3), and a
type mismatch on a binary op is an internal error (spec §7). -/
def valueSub (l r : Value) : Except Err Value :=
  match l, r with
  | .I32 a, .I32 b => .ok (.I32 (wrap32 (a - b)))
  | .I64 a, .I64 b => .ok (.I64 (wrap64 (a - b)))
  | _, _ => .error (.internal "type mismatch")

/-- Call frame, as far as `local_get` touches it: the `local_stack` of the
spec's data model (function parameters followed by declared locals). -/
structure Frame where
  local_stack : List Value
  deriving DecidableEq, Repr

/-- Runtime state, as far as `local_get` touches it: the operand stack and
the call-frame stack (innermost frame first). -/
structure Runtime where
  stack : List Value
  frames : List Frame
  deriving DecidableEq, Repr

/-- Modelled from the spec: `Runtime::current_frame`
(`execution/runtime.rs` is absent from the sources) — the frame of the
innermost in-flight call, failing when no call is in flight (spec §3,
frames exist only between call entry and return). -/
def current_frame (rt : Runtime) : Except Err Frame :=
  match rt.frames with
  | f :: _ => .ok f
  | [] => .error (.internal "not found frame")

/-- Embedding of `local_get` from `src/instruction.rs`: read the local at
`idx` from the current frame (the internal error `not found local
variable` when out of range) and push a copy onto the operand stack. The
final state is returned alongside an optional error; the one mutation (the
push) happens only after both fallible lookups succeed, as in the source. -/
def local_get (rt : Runtime) (idx : Nat) : Runtime × Option Err :=
  match current_frame rt with
  | .error e => (rt, some e)
  | .ok f =>
    match f.local_stack.get? idx with
    | none => (rt, some (.internal "not found local variable"))
    | some v => ({ rt with stack := v :: rt.stack }, none)

/-- Script values of the wabt test harness, as `tests/spec.rs` consumes
them (`V128` is never produced by the embedded directives); floats are
carried as raw bit patterns. -/
inductive ScriptValue where
  | I32 (v : Int)
  | I64 (v : Int)
  | F32 (bits : Nat)
  | F64 (bits : Nat)
  deriving DecidableEq, Repr

/-- IEEE-754 binary32 NaN test on a bit pattern, Rust's `f32::is_nan`:
exponent bits all ones and a non-zero mantissa. -/
def f32IsNan (p : Nat) : Bool :=
  (p / 2 ^ 23) % 2 ^ 8 == 2 ^ 8 - 1 && p % 2 ^ 23 != 0

/-- IEEE-754 binary64 NaN test on a bit pattern, Rust's `f64::is_nan`. -/
def f64IsNan (p : Nat) : Bool :=
  (p / 2 ^ 52) % 2 ^ 11 == 2 ^ 11 - 1 && p % 2 ^ 52 != 0

/-- IEEE-754 equality on binary32 bit patterns, as Rust's `==` on `f32`
behaves inside the derived `PartialEq` of script values: a NaN compares
unequal to everything, the two zero patterns compare equal, and otherwise
distinct patterns denote distinct numbers. -/
def f32Eq (p q : Nat) : Bool :=
  if f32IsNan p || f32IsNan q then false
  else if (p == 0 || p == 2 ^ 31) && (q == 0 || q == 2 ^ 31) then true
  else p == q

/-- IEEE-754 equality on binary64 bit patterns, Rust's `==` on `f64`. -/
def f64Eq (p q : Nat) : Bool :=
  if f64IsNan p || f64IsNan q then false
  else if (p == 0 || p == 2 ^ 63) && (q == 0 || q == 2 ^ 63) then true
  else p == q

/-- Derived `PartialEq` on wabt script values: structural on the integer
kinds, IEEE equality on the float kinds, distinct kinds unequal. -/
def scriptValueEq (a b : ScriptValue) : Bool :=
  match a, b with
  | .I32 x, .I32 y => x == y
  | .I64 x, .I64 y => x == y
  | .F32 p, .F32 q => f32Eq p q
  | .F64 p, .F64 q => f64Eq p q
  | _, _ => false

/-- `Vec` equality as `assert_eq!` compares the `want` and `got` vectors:
same length and elementwise `PartialEq`. -/
def scriptValuesEq : List ScriptValue → List ScriptValue → Bool
  | [], [] => true
  | a :: xs, b :: ys => scriptValueEq a b && scriptValuesEq xs ys
  | _, _ => false

/-- Embedding of the `got` mapping of `assert_values` (`tests/spec.rs`): a
runtime result value becomes a script value, with an `F32`/`F64` NaN
payload replaced by `0_f32`/`0_f64` (bit pattern 0). -/
def canonGot (v : Value) : ScriptValue :=
  match v with
  | .I32 x => .I32 x
  | .I64 x => .I64 x
  | .F32 p => if f32IsNan p then .F32 0 else .F32 p
  | .F64 p => if f64IsNan p then .F64 0 else .F64 p

/-- Embedding of the `want` mapping of `assert_values` (`tests/spec.rs`):
an expected script value with a NaN payload is replaced by zero. -/
def canonWant (e : ScriptValue) : ScriptValue :=
  match e with
  | .F32 p => if f32IsNan p then .F32 0 else .F32 p
  | .F64 p => if f64IsNan p then .F64 0 else .F64 p
  | .I32 x => .I32 x
  | .I64 x => .I64 x

/-- Embedding of `assert_values` from `tests/spec.rs`: map results and
expectations through the NaN canonicalisation and compare the vectors with
`assert_eq!(want, got)`; `true` means the assertion passes. -/
def assert_values (results : List Value) (expected : List ScriptValue) : Bool :=
  scriptValuesEq (expected.map canonWant) (results.map canonGot)

/-- Outcome of one harness directive: the assertion passed, the
`assert_eq!` failed, or the harness panicked with a message. -/
inductive Outcome where
  | pass
  | assertFailed
  | panicked (msg : String)
  deriving DecidableEq, Repr

/-- Embedding of `invoke` from `tests/spec.rs`, applied to what
`runtime.call` returned: a `Some` result is compared as the singleton
vector against the expectations; a `None` result returns `Ok(())` at
once. -/
def harnessInvoke (result : Option Value) (expected : List ScriptValue) : Outcome :=
  match result with
  | some r => if assert_values [r] expected then .pass else .assertFailed
  | none => .pass

/-- Embedding of the `AssertTrap` arm of `run_test` (`tests/spec.rs`),
applied to what `runtime.call` returned (the rendered error string on
failure): an error must equal the directive's message exactly under
`assert_eq!(want, got)`; a normal return panics `test must be fail`. -/
def assertTrapArm (result : Except String (Option Value)) (message : String) :
    Outcome :=
  match result with
  | .error err => if message == err then .pass else .assertFailed
  | .ok _ => .panicked "test must be fail"

/-- Outcome of the CLI process of `src/main.rs`: print the result and exit
zero, exit non-zero with an error message, or panic. -/
inductive CliOutcome where
  | printed (v : Value)
  | errExit (msg : String)
  | panicked
  deriving DecidableEq, Repr

/-- Embedding of `main` from `src/main.rs`, applied to what
`runtime.invoke` returned: an error propagates through `?` to the `Result`
main, a non-zero exit with the message on stderr; on `Ok`, the source
prints `result?.unwrap()`, so a `Some` value is printed (exit 0) and a
`None` result panics. -/
def cliMain (invokeResult : Except String (Option Value)) : CliOutcome :=
  match invokeResult with
  | .error e => .errExit e
  | .ok (some v) => .printed v
  | .ok none => .panicked

/-- Embedding of the CLI argument conversion of `src/main.rs`: clap parses
`func_args` as `Vec<i32>`, and each argument becomes `Value::from(arg)`,
an `I32`. -/
def cliArgToValue (arg : Int) : Value := .I32 arg

end Chibiwasm

namespace Chibiwasm

/-- Count of set bits as a sum of bit tests over the width. -/
theorem popCountNat_eq_sum_testBit :
    ∀ w n : Nat, n < 2 ^ w →
      popCountNat n = ∑ i ∈ Finset.range w, (n.testBit i).toNat := by
  intro w
  induction w with
  | zero =>
    intro n hn
    have h0 : n = 0 := Nat.lt_one_iff.mp (by simpa using hn)
    subst h0
    simp [popCountNat]
  | succ w ih =>
    intro n hn
    rcases Nat.eq_zero_or_pos n with h0 | hpos
    · subst h0
      simp [popCountNat, Nat.zero_testBit]
    · have hne : n ≠ 0 := Nat.pos_iff_ne_zero.mp hpos
      have hrec : popCountNat n = n % 2 + popCountNat (n / 2) := by
        rw [popCountNat]
        simp [hne]
      have hdiv : n / 2 < 2 ^ w := by
        have h2 : n < 2 ^ w * 2 := by
          rw [← pow_succ]
          exact hn
        omega
      rw [hrec, ih (n / 2) hdiv, Finset.sum_range_succ']
      simp only [Nat.testBit_succ]
      have hb0 : (n.testBit 0).toNat = n % 2 := by
        rw [Nat.testBit_zero]
        rcases Nat.mod_two_eq_zero_or_one n with h | h <;> simp [h]
      rw [hb0]
      omega

/-- Count of set bits as the cardinality of the set of one-bit positions. -/
theorem popCountNat_card (w n : Nat) (h : n < 2 ^ w) :
    popCountNat n = ((Finset.range w).filter (fun i => n.testBit i = true)).card := by
  rw [popCountNat_eq_sum_testBit w n h, Finset.card_filter]
  apply Finset.sum_congr rfl
  intro i _
  cases h' : n.testBit i <;> simp [h']

/-- Claim C1 (counterexample): the claim says the decoder's opcode table
contains `block` at byte `0x02`, but decoding `0x02` yields nothing. -/
theorem c1_block_opcode_missing : Opcode.from_u8 0x02 = none := by decide

/-- Claim C1 (amended): the sign-extension opcodes decode from bytes
`0xC0..0xC4` and the constants `i32.const 0x41`, `i64.const 0x42`,
`f32.const 0x43` decode from their listed bytes, together with the control
opcodes `unreachable 0x00`, `nop 0x01`, `if 0x04`, `else 0x05`, `end 0x0B`,
`return 0x0F` and `call 0x10`; but `block 0x02`, `loop 0x03`, `br 0x0C`,
`br_if 0x0D`, `br_table 0x0E`, `call_indirect 0x11` and `f64.const 0x44`
are absent from the opcode table, so those bytes do not decode. -/
theorem c1_opcode_table :
    Opcode.from_u8 0xC0 = some .I32Extend8S ∧
    Opcode.from_u8 0xC1 = some .I32Extend16S ∧
    Opcode.from_u8 0xC2 = some .I64Extend8S ∧
    Opcode.from_u8 0xC3 = some .I64Extend16S ∧
    Opcode.from_u8 0xC4 = some .I64Extend32S ∧
    Opcode.from_u8 0x41 = some .I32Const ∧
    Opcode.from_u8 0x42 = some .I64Const ∧
    Opcode.from_u8 0x43 = some .F32Const ∧
    Opcode.from_u8 0x00 = some .Unreachable ∧
    Opcode.from_u8 0x01 = some .Nop ∧
    Opcode.from_u8 0x04 = some .If ∧
    Opcode.from_u8 0x05 = some .Else ∧
    Opcode.from_u8 0x0B = some .End ∧
    Opcode.from_u8 0x0F = some .Return ∧
    Opcode.from_u8 0x10 = some .Call ∧
    Opcode.from_u8 0x02 = none ∧
    Opcode.from_u8 0x03 = none ∧
    Opcode.from_u8 0x0C = none ∧
    Opcode.from_u8 0x0D = none ∧
    Opcode.from_u8 0x0E = none ∧
    Opcode.from_u8 0x11 = none ∧
    Opcode.from_u8 0x44 = none := by decide

/-- Claim C2: a binary operation on an operand stack holding fewer than two
values returns the internal `StackPopError`; `popcnt` applied to an `F32`
or `F64` operand returns an internal error; and neither error is a spec
trap. -/
theorem c2_internal_errors (op : Value → Value → Except Err Value)
    (st : List Value) (bits : Nat) (m : String) (h : st.length < 2) :
    binaryOperation op st = .error .stackPopError ∧
    popcnt (.F32 bits :: st) = .error (.internal "unexpected value") ∧
    popcnt (.F64 bits :: st) = .error (.internal "unexpected value") ∧
    Err.stackPopError ≠ .trap m ∧
    Err.internal "unexpected value" ≠ .trap m := by
  refine ⟨?_, rfl, rfl, by simp, by simp⟩
  rcases st with _ | ⟨r, _ | ⟨l, rest⟩⟩
  · rfl
  · rfl
  · simp at h
    omega

/-- Claim C2 witness: a concrete one-element stack underflows with
`StackPopError`, and `popcnt` on a concrete `F32` operand reports the
internal error. -/
theorem c2_internal_errors_witness :
    binaryOperation valueSub [Value.I32 7] = .error .stackPopError ∧
    popcnt (Value.F32 0x7FC00000 :: [Value.I32 7]) =
      .error (.internal "unexpected value") :=
  ⟨(c2_internal_errors valueSub [Value.I32 7] 0x7FC00000 "x" (by decide)).1,
   (c2_internal_errors valueSub [Value.I32 7] 0x7FC00000 "x" (by decide)).2.1⟩

/-- Claim C3: executing `popcnt` with `I32 a` on top of the operand stack
pops it and pushes `I32` of the number of set bits of `a`'s 32-bit
two's-complement pattern; with `I64 b` on top it pushes the count over the
full 64-bit width. -/
theorem c3_popcnt_counts_set_bits (a b : Int) (st : List Value) :
    popcnt (Value.I32 a :: st) =
      .ok (Value.I32 (((Finset.range 32).filter
        (fun i => (a % 2 ^ 32).toNat.testBit i = true)).card : Nat) :: st) ∧
    popcnt (Value.I64 b :: st) =
      .ok (Value.I64 (((Finset.range 64).filter
        (fun i => (b % 2 ^ 64).toNat.testBit i = true)).card : Nat) :: st) := by
  have ha : (a % 2 ^ 32).toNat < 2 ^ 32 := by
    have h1 : 0 ≤ a % 2 ^ 32 := Int.emod_nonneg a (by norm_num)
    have h2 : a % 2 ^ 32 < 2 ^ 32 := Int.emod_lt_of_pos a (by norm_num)
    omega
  have hb : (b % 2 ^ 64).toNat < 2 ^ 64 := by
    have h1 : 0 ≤ b % 2 ^ 64 := Int.emod_nonneg b (by norm_num)
    have h2 : b % 2 ^ 64 < 2 ^ 64 := Int.emod_lt_of_pos b (by norm_num)
    omega
  constructor
  · have h1 : popcnt (Value.I32 a :: st) =
        .ok (.I32 (i32CountOnes a : Nat) :: st) := rfl
    rw [h1]
    simp only [i32CountOnes]
    rw [popCountNat_card 32 _ ha]
  · have h1 : popcnt (Value.I64 b :: st) =
        .ok (.I64 (i64CountOnes b : Nat) :: st) := rfl
    rw [h1]
    simp only [i64CountOnes]
    rw [popCountNat_card 64 _ hb]

/-- Claim C4: `i64.extend32_s` with `I64 v` on top of the operand stack
pops it and pushes the two's-complement sign-extension of the low 32 bits
of `v` to 64 bits, computed in the source as `v << 32 >> 32`. -/
theorem c4_i64extend_32s_sign_extends (v : Int) (st : List Value) :
    i64extend_32s (Value.I64 v :: st) =
      .ok (Value.I64 (if v % 2 ^ 32 < 2 ^ 31 then v % 2 ^ 32
                      else v % 2 ^ 32 - 2 ^ 32) :: st) := by
  have key : ashr (wrap64 (v * 2 ^ 32)) 32 =
      (if v % 2 ^ 32 < 2 ^ 31 then v % 2 ^ 32 else v % 2 ^ 32 - 2 ^ 32) := by
    simp only [ashr, wrap64]
    rw [Int.fdiv_eq_ediv _ (by positivity)]
    omega
  have h1 : i64extend_32s (Value.I64 v :: st) =
      .ok (.I64 (ashr (wrap64 (v * 2 ^ 32)) 32) :: st) := rfl
  rw [h1, key]

/-- Claim C5: in the harness's result comparison any NaN equals any NaN —
an `F32`/`F64` NaN payload on the result side and on the expected side is
replaced by 0 before the equality assertion, so an `AssertReturn` with a
NaN expectation accepts every NaN result regardless of payload or sign. -/
theorem c5_nan_canonicalised (p q r s : Nat)
    (hp : f32IsNan p = true) (hq : f32IsNan q = true)
    (hr : f64IsNan r = true) (hs : f64IsNan s = true) :
    canonGot (Value.F32 p) = .F32 0 ∧
    canonWant (ScriptValue.F32 q) = .F32 0 ∧
    canonGot (Value.F64 r) = .F64 0 ∧
    canonWant (ScriptValue.F64 s) = .F64 0 ∧
    assert_values [Value.F32 p] [ScriptValue.F32 q] = true ∧
    assert_values [Value.F64 r] [ScriptValue.F64 s] = true := by
  have h32 : f32Eq 0 0 = true := by decide
  have h64 : f64Eq 0 0 = true := by decide
  refine ⟨?_, ?_, ?_, ?_, ?_, ?_⟩ <;>
    simp [canonGot, canonWant, assert_values, scriptValuesEq, scriptValueEq,
      hp, hq, hr, hs, h32, h64]

/-- Claim C5 witness: a quiet-NaN result matches a differently-signed,
differently-payloaded NaN expectation, for both `f32` and `f64`. -/
theorem c5_nan_witness :
    assert_values [Value.F32 0x7FC00000] [ScriptValue.F32 0xFFC00001] = true ∧
    assert_values [Value.F64 0x7FF8000000000000]
      [ScriptValue.F64 0xFFF0000000000001] = true :=
  ⟨(c5_nan_canonicalised 0x7FC00000 0xFFC00001 0x7FF8000000000000
      0xFFF0000000000001 (by decide) (by decide) (by decide)
      (by decide)).2.2.2.2.1,
   (c5_nan_canonicalised 0x7FC00000 0xFFC00001 0x7FF8000000000000
      0xFFF0000000000001 (by decide) (by decide) (by decide)
      (by decide)).2.2.2.2.2⟩

/-- Claim C6: an `AssertTrap` directive passes exactly when the rendered
error string equals the expected trap message (string equality, no
substring matching), and a call that returns normally panics the test. -/
theorem c6_assert_trap_exact_match (err msg : String) (res : Option Value) :
    (assertTrapArm (.error err) msg = .pass ↔ msg = err) ∧
    assertTrapArm (.ok res) msg = .panicked "test must be fail" := by
  refine ⟨?_, rfl⟩
  by_cases h : msg = err
  · subst h
    simp [assertTrapArm]
  · simp [assertTrapArm, h]

/-- Claim C6 witness: the exact trap string passes, and a normal return
panics, at a concrete directive. -/
theorem c6_assert_trap_witness :
    assertTrapArm (.error "integer divide by zero") "integer divide by zero" =
      .pass ∧
    assertTrapArm (.ok none) "integer divide by zero" =
      .panicked "test must be fail" :=
  ⟨(c6_assert_trap_exact_match "integer divide by zero"
      "integer divide by zero" none).1.mpr rfl,
   (c6_assert_trap_exact_match "integer divide by zero"
      "integer divide by zero" none).2⟩

/-- Claim C7 (counterexample): the claim says a successful invocation of an
export that returns no value prints the result and exits 0, but `main`
calls `result?.unwrap()`, which panics on `None`. -/
theorem c7_none_result_panics : cliMain (.ok none) = .panicked := rfl

/-- Claim C7 (amended): the CLI prints the value and exits 0 only when the
invocation returns `Some` value; it exits non-zero with the message on a
trap or instantiation failure; it panics (a non-zero exit without a printed
result) when the export returns no value; and it parses every function
argument as an `i32`, each becoming an `I32` value. -/
theorem c7_cli_behaviour (v : Value) (e : String) (arg : Int) :
    cliMain (.ok (some v)) = .printed v ∧
    cliMain (.error e) = .errExit e ∧
    cliMain (.ok none) = .panicked ∧
    cliArgToValue arg = .I32 arg :=
  ⟨rfl, rfl, rfl, rfl⟩

/-- Claim C8: a binary operation pops the right operand from the top of the
stack and the left operand beneath it, pushing `l OP r`: on the stack
`b :: a :: st` (with `b` on top) it computes `op a b`, and in particular
`sub` pushes `a - b` (modulo `2^32` for `I32` operands). -/
theorem c8_binary_operand_order (op : Value → Value → Except Err Value)
    (a b : Value) (st : List Value) (x y : Int) :
    (∀ e, op a b = .error e →
      binaryOperation op (b :: a :: st) = .error e) ∧
    (∀ v, op a b = .ok v →
      binaryOperation op (b :: a :: st) = .ok (v :: st)) ∧
    binaryOperation valueSub (Value.I32 y :: Value.I32 x :: st) =
      .ok (Value.I32 (wrap32 (x - y)) :: st) := by
  refine ⟨?_, ?_, rfl⟩
  · intro e h
    simp only [binaryOperation, pop_rl, h]
  · intro v h
    simp only [binaryOperation, pop_rl, h]

/-- Claim C8 witness: with 2 beneath 5 on the stack, `sub` computes
`2 - 5 = -3`. -/
theorem c8_operand_order_witness :
    binaryOperation valueSub [Value.I32 5, Value.I32 2] =
      .ok [Value.I32 (-3)] :=
  (c8_binary_operand_order valueSub (Value.I32 2) (Value.I32 5) [] 2 5).2.1
    (Value.I32 (-3)) (by norm_num [valueSub, wrap32])

/-- Claim C9: `local_get` leaves the frame stack (and so the current
frame's `local_stack`) unchanged; on success it pushes a copy of the local
at the given index, growing the operand stack by exactly one; on an
out-of-range index it reports an error with the state untouched. -/
theorem c9_local_get_frame_effect (f : Frame) (fs : List Frame)
    (st : List Value) (idx : Nat) :
    (∀ v, f.local_stack.get? idx = some v →
      local_get ⟨st, f :: fs⟩ idx = (⟨v :: st, f :: fs⟩, none)) ∧
    (f.local_stack.length ≤ idx →
      local_get ⟨st, f :: fs⟩ idx =
        (⟨st, f :: fs⟩, some (.internal "not found local variable"))) := by
  constructor
  · intro v hv
    simp only [local_get, current_frame, hv]
  · intro hlen
    have hnone : f.local_stack.get? idx = none := List.get?_eq_none.mpr hlen
    simp only [local_get, current_frame, hnone]

/-- Claim C9 witness: fetching local 1 of the frame with locals `[7, 9]`
pushes `9` and keeps the frame, and index 5 reports the lookup error with
the state untouched. -/
theorem c9_local_get_witness :
    local_get ⟨[], [⟨[Value.I32 7, Value.I32 9]⟩]⟩ 1 =
      (⟨[Value.I32 9], [⟨[Value.I32 7, Value.I32 9]⟩]⟩, none) ∧
    local_get ⟨[], [⟨[Value.I32 7, Value.I32 9]⟩]⟩ 5 =
      (⟨[], [⟨[Value.I32 7, Value.I32 9]⟩]⟩,
        some (.internal "not found local variable")) :=
  ⟨(c9_local_get_frame_effect ⟨[Value.I32 7, Value.I32 9]⟩ [] [] 1).1
      (Value.I32 9) (by decide),
   (c9_local_get_frame_effect ⟨[Value.I32 7, Value.I32 9]⟩ [] [] 5).2
      (by decide)⟩

/-- Claim C10: an `AssertReturn` invocation that returns `None` passes
unconditionally, whatever values were expected; a `Some` result is compared
as a single value, so two or more expected values always fail the
assertion, and a single comparison reduces to `assert_values` on the
singleton result vector. -/
theorem c10_none_result_passes (expected : List ScriptValue) (r : Value)
    (e1 e2 : ScriptValue) (rest : List ScriptValue) :
    harnessInvoke none expected = .pass ∧
    harnessInvoke (some r) (e1 :: e2 :: rest) = .assertFailed ∧
    (harnessInvoke (some r) expected = .pass ↔
      assert_values [r] expected = true) := by
  refine ⟨rfl, ?_, ?_⟩
  · have hfalse : assert_values [r] (e1 :: e2 :: rest) = false := by
      simp [assert_values, scriptValuesEq]
    simp [harnessInvoke, hfalse]
  · by_cases h : assert_values [r] expected = true
    · simp [harnessInvoke, h]
    · simp [harnessInvoke, h]

/-- Claim C10 witness: a `None` result passes against a non-empty
expectation list, and a single result against two expected values fails. -/
theorem c10_none_result_witness :
    harnessInvoke none [ScriptValue.I32 5] = .pass ∧
    harnessInvoke (some (Value.I32 1))
      [ScriptValue.I32 1, ScriptValue.I32 2] = .assertFailed :=
  ⟨(c10_none_result_passes [ScriptValue.I32 5] (Value.I32 1)
      (ScriptValue.I32 1) (ScriptValue.I32 2) []).1,
   (c10_none_result_passes [ScriptValue.I32 5] (Value.I32 1)
      (ScriptValue.I32 1) (ScriptValue.I32 2) []).2.1⟩

end Chibiwasm
